import Mathlib

/-!
Verification development for the `pymt5adapter` core module
(`src/pymt5adapter/core.py`), a thin adaptation layer over the external
MetaTrader5 terminal binding.  The external binding is modelled as values
and functions supplied as parameters; the adapter's own logic (the
`_context_manager_modified` wrapper, the forwarding functions, the
`copy_rates` dispatch and the `symbols_get` filtering) is embedded as
executable Lean definitions.
-/

namespace PyMT5

/-- Modelled from the spec: the `const` module is not under `src/`; the spec
and `core.py` only use `const.RES_S_OK` as the success code reported by
`last_error`.  The concrete value is immaterial to every claim. -/
def RES_S_OK : Int := 1

/-- One record of a rates array as delivered by the terminal binding:
the eight named columns time, open, high, low, close, tick_volume,
spread, real_volume. -/
structure RateRec where
  time : Int
  open_ : Int
  high : Int
  low : Int
  close : Int
  tick_volume : Int
  spread : Int
  real_volume : Int
deriving DecidableEq

/-- The `Rate` named tuple of the adapter (from the `types` module),
holding the same eight fields. -/
structure Rate where
  time : Int
  open_ : Int
  high : Int
  low : Int
  close : Int
  tick_volume : Int
  spread : Int
  real_volume : Int
deriving DecidableEq

/-- `Rate(*r)`: unpacking one array-like record into the named tuple. -/
def Rate.ofRec (r : RateRec) : Rate :=
  ⟨r.time, r.open_, r.high, r.low, r.close, r.tick_volume, r.spread, r.real_volume⟩

/-- Python values that flow through the wrapper: `None`, scalars, a numpy
structured rates array, and a Python list of `Rate` named tuples (the shape
produced by the force_namedtuple normalization). -/
inductive MTResult where
  | pyNone
  | pyBool (b : Bool)
  | pyInt (n : Int)
  | pyStr (s : String)
  | ratesArray (rows : List RateRec)
  | rateList (rs : List Rate)
deriving DecidableEq

/-- Python exceptions relevant to the adapter: `SystemError` raised by the
binding, the adapter's own `MT5Error(code, description)`, and any other
exception type (carried with its type name). -/
inductive PyExc where
  | systemError (msg : String)
  | mt5Error (code : Int) (desc : String)
  | otherExc (name : String) (msg : String)
deriving DecidableEq

/-- Modelled from the spec: `helpers._is_rates_array` is not under `src/`.
It recognizes an array-like collection of rate records (a numpy structured
array whose columns are the rate fields). -/
def _is_rates_array : MTResult → Bool
  | .ratesArray _ => true
  | _ => false

/-- `[Rate(*r) for r in result]` (core.py line 25): convert each record of a
rates array to a `Rate` named tuple, yielding a Python list; any other value
is returned unchanged (the wrapper only applies this under the
`_is_rates_array` test). -/
def toRateList : MTResult → MTResult
  | .ratesArray rows => .rateList (rows.map Rate.ofRec)
  | r => r

/-- The mutable flags and log sink of `state.global_state` that the wrapper
consults (`force_namedtuple`, `global_debugging`, `raise_on_errors`); `logs`
accumulates the lines passed to `_state.log`. -/
structure AdapterState where
  force_namedtuple : Bool
  global_debugging : Bool
  raise_on_errors : Bool
  logs : List String
deriving DecidableEq

/-- Call-site context of one wrapped invocation: the wrapped function's
name, the rendering `_args_to_str(args, kwargs)` of its arguments, Python's
`str` on result values, and the (code, description) pair the terminal
binding reports through `_mt5.last_error()` after the call. -/
structure WrapCtx where
  fname : String
  argsStr : String
  render : MTResult → String
  lastErrorCode : Int
  lastErrorDesc : String

/-- `last_error` (core.py lines 102-108): returns `_mt5.last_error()`
directly — it is the one exposed function NOT passed through the wrapper. -/
def last_error (mt5_last_error : Int × String) : Int × String :=
  mt5_last_error

/-- Python `str` of the `(code, description)` pair as interpolated into the
debug log f-string. -/
def pyPairStr (e : Int × String) : String :=
  "(" ++ toString e.1 ++ ", " ++ e.2 ++ ")"

/-- `call_sig = f.__name__ + ( args )` (core.py line 27). -/
def callSigStr (fname argsStr : String) : String :=
  fname ++ "(" ++ argsStr ++ ")"

/-- The debug log line of core.py line 28: call signature, `last_error()`,
and the first 80 characters of `str(result)`. -/
def logLine (callSig : String) (lastErr : Int × String) (resultStr : String) : String :=
  "[" ++ callSig ++ "][" ++ pyPairStr lastErr ++ "][" ++ resultStr.take 80 ++ "]"

/-- The `_context_manager_modified` wrapper (core.py lines 19-35).  `call`
is the outcome of `f(*args, **kwargs)`: an exception raised there propagates
untouched; otherwise the wrapper (1) normalizes a rates array to a list of
`Rate` named tuples when `force_namedtuple` is set, (2) appends a debug log
line when `global_debugging` is set, and (3) when `raise_on_errors` is set
and `last_error()` reports a code other than `RES_S_OK`, raises
`MT5Error(code, description)`; otherwise it returns the result. -/
def wrapper (ctx : WrapCtx) (st : AdapterState) (call : Except PyExc MTResult) :
    Except PyExc MTResult × AdapterState :=
  match call with
  | .error e => (.error e, st)
  | .ok res =>
    let result :=
      if st.force_namedtuple && _is_rates_array res then toRateList res else res
    let st1 :=
      if st.global_debugging then
        let call_sig := callSigStr ctx.fname ctx.argsStr
        { st with logs := st.logs ++
            [logLine call_sig (last_error (ctx.lastErrorCode, ctx.lastErrorDesc))
              (ctx.render result)] }
      else st
    if st.raise_on_errors then
      let errPair := last_error (ctx.lastErrorCode, ctx.lastErrorDesc)
      if errPair.1 ≠ RES_S_OK then
        (.error (.mt5Error errPair.1 errPair.2), st1)
      else (.ok result, st1)
    else (.ok result, st1)

/-- Python truthiness of the `group` argument (`if group` on core.py line
154): `None` and the empty string are falsy, any other string is truthy. -/
def pyTruthyStr : Option String → Bool
  | none => false
  | some s => s != ""

/-- The argument with which `symbols_get` invokes the underlying binding
(core.py line 154): `group=group` when `group` is truthy, no group argument
at all (`none`) otherwise. -/
def symbols_get_call (group : Option String) : Option String :=
  if pyTruthyStr group then group else none

/-- `symbols_get` (core.py lines 139-157): fetch symbols from the binding
(with or without the group filter, per truthiness of `group`), then, when a
predicate `function` is supplied, keep exactly the symbols satisfying it. -/
def symbols_get {α : Type} (mt5_symbols_get : Option String → List α)
    (group : Option String) (function : Option (α → Bool)) : List α :=
  let symbols := mt5_symbols_get (symbols_get_call group)
  match function with
  | some f => symbols.filter f
  | none => symbols

/-- The underlying library calls `copy_rates` can dispatch to (core.py
lines 270-278), each carrying the arguments the adapter forwards. -/
inductive CopyRatesCall where
  | viaFrom (symbol : String) (timeframe : Int) (datetime_from : Int) (count : Int)
  | viaRange (symbol : String) (timeframe : Int) (datetime_from : Int) (datetime_to : Int)
  | viaFromPos (symbol : String) (timeframe : Int) (start_pos : Option Int) (count : Option Int)
deriving DecidableEq

/-- The dispatch logic of `copy_rates` (core.py lines 271-278): a direct
transcription of the nested `is not None` tests, with Python fall-through
flattened into one match. -/
def copy_rates_dispatch (symbol : String) (timeframe : Int)
    (datetime_from datetime_to start_pos count : Option Int) : CopyRatesCall :=
  match datetime_from, count, datetime_to with
  | some dfrom, some c, _ => .viaFrom symbol timeframe dfrom c
  | some dfrom, none, some dto => .viaRange symbol timeframe dfrom dto
  | _, _, _ =>
    if datetime_from = none ∧ datetime_to = none ∧ start_pos = none ∧ count = none then
      .viaFromPos symbol timeframe (some 3000) (some 0)
    else .viaFromPos symbol timeframe start_pos count

/-- `copy_rates` (core.py lines 251-280): dispatch to one underlying call,
returning `None` when the binding raises `SystemError`. -/
def copy_rates (impl : CopyRatesCall → Except PyExc MTResult)
    (symbol : String) (timeframe : Int)
    (datetime_from datetime_to start_pos count : Option Int) : Except PyExc MTResult :=
  match impl (copy_rates_dispatch symbol timeframe datetime_from datetime_to start_pos count) with
  | .error (.systemError _) => .ok .pyNone
  | r => r

/-- `copy_rates_from` (core.py lines 191-208): forward to the binding,
returning `None` when it raises `SystemError`. -/
def copy_rates_from
    (mt5_copy_rates_from : String → Int → Int → Int → Except PyExc MTResult)
    (symbol : String) (timeframe datetime_from count : Int) : Except PyExc MTResult :=
  match mt5_copy_rates_from symbol timeframe datetime_from count with
  | .error (.systemError _) => .ok .pyNone
  | r => r

/-- `copy_rates_from_pos` (core.py lines 211-228): forward to the binding,
returning `None` when it raises `SystemError`. -/
def copy_rates_from_pos
    (mt5_copy_rates_from_pos : String → Int → Int → Int → Except PyExc MTResult)
    (symbol : String) (timeframe start_pos count : Int) : Except PyExc MTResult :=
  match mt5_copy_rates_from_pos symbol timeframe start_pos count with
  | .error (.systemError _) => .ok .pyNone
  | r => r

/-- `copy_rates_range` (core.py lines 231-248): forward to the binding,
returning `None` when it raises `SystemError`. -/
def copy_rates_range
    (mt5_copy_rates_range : String → Int → Int → Int → Except PyExc MTResult)
    (symbol : String) (timeframe datetime_from datetime_to : Int) : Except PyExc MTResult :=
  match mt5_copy_rates_range symbol timeframe datetime_from datetime_to with
  | .error (.systemError _) => .ok .pyNone
  | r => r

/-- `copy_ticks_from` (core.py lines 283-305): forward to the binding,
returning `None` when it raises `SystemError`. -/
def copy_ticks_from
    (mt5_copy_ticks_from : String → Int → Int → Int → Except PyExc MTResult)
    (symbol : String) (datetime_from count flags : Int) : Except PyExc MTResult :=
  match mt5_copy_ticks_from symbol datetime_from count flags with
  | .error (.systemError _) => .ok .pyNone
  | r => r

/-- `copy_ticks_range` (core.py lines 308-330): forward to the binding,
returning `None` when it raises `SystemError`. -/
def copy_ticks_range
    (mt5_copy_ticks_range : String → Int → Int → Int → Except PyExc MTResult)
    (symbol : String) (datetime_from datetime_to flags : Int) : Except PyExc MTResult :=
  match mt5_copy_ticks_range symbol datetime_from datetime_to flags with
  | .error (.systemError _) => .ok .pyNone
  | r => r

/-- Keyword-argument values the adapter reshapes before forwarding. -/
inductive PyArg where
  | int (n : Int)
  | str (s : String)
  | bool (b : Bool)
deriving DecidableEq

/-- Modelled from the spec: `helpers._clean_args` is not under `src/`; the
spec describes it as argument cleaning before delegation.  It removes the
unset (`None`-valued) keyword arguments, keeping the rest in order. -/
def _clean_args (d : List (String × Option PyArg)) : List (String × PyArg) :=
  d.filterMap (fun p => p.2.map (fun v => (p.1, v)))

/-- Python `dict.pop(key)` on an association list with unique keys: the
looked-up value together with the dictionary without that key. -/
def dictPop (key : String) (d : List (String × PyArg)) :
    Option PyArg × List (String × PyArg) :=
  (d.lookup key, d.filter (fun p => p.1 ≠ key))

/-- Body of `initialize` before the wrapper (core.py lines 58-60): clean
the keyword arguments and pass them to `_mt5.initialize`, returning its
result unchanged. -/
def initialize_body (mt5_init : List (String × PyArg) → Except PyExc MTResult)
    (args : List (String × Option PyArg)) : Except PyExc MTResult :=
  mt5_init (_clean_args args)

/-- Body of `login` before the wrapper (core.py lines 79-81): clean the
arguments, pop the required `login` value, and pass it positionally with
the remaining keywords to `_mt5.login`. -/
def login_body (mt5_login : PyArg → List (String × PyArg) → Except PyExc MTResult)
    (loginArg : PyArg) (others : List (String × Option PyArg)) : Except PyExc MTResult :=
  let args := _clean_args (("login", some loginArg) :: others)
  match dictPop "login" args with
  | (some v, rest) => mt5_login v rest
  | (none, _) => .error (.otherExc "KeyError" "login")

/-- Body of `account_info` before the wrapper (core.py lines 111-117):
return `_mt5.account_info()` unchanged. -/
def account_info_body (mt5_account_info : Except PyExc MTResult) : Except PyExc MTResult :=
  mt5_account_info

/-- The exposed module-level functions of core.py paired with whether the
source applies the `_context_manager_modified` decorator to them, in
definition order. -/
def exposedOps : List (String × Bool) :=
  [("initialize", true), ("login", true), ("shutdown", true), ("version", true),
   ("last_error", false),
   ("account_info", true), ("terminal_info", true), ("symbols_total", true),
   ("symbols_get", true), ("symbol_info", true), ("symbol_info_tick", true),
   ("symbol_select", true),
   ("copy_rates_from", true), ("copy_rates_from_pos", true), ("copy_rates_range", true),
   ("copy_rates", true), ("copy_ticks_from", true), ("copy_ticks_range", true),
   ("orders_total", true), ("orders_get", true),
   ("order_calc_margin", true), ("order_calc_profit", true),
   ("order_check", true), ("order_send", true),
   ("positions_total", true), ("positions_get", true),
   ("history_deals_get", true), ("history_orders_total", true),
   ("history_deals_total", true), ("history_orders_get", true)]

/-! Concrete call contexts and states used by the witness theorems. -/

/-- A rendering of results (the exact string is irrelevant to the claims). -/
def renderNone : MTResult → String := fun _ => ""

/-- A call context whose terminal reports error code 2. -/
def ctxErr : WrapCtx := ⟨"account_info", "", renderNone, 2, "err"⟩

/-- A call context whose terminal reports the success code. -/
def ctxOk : WrapCtx := ⟨"account_info", "", renderNone, RES_S_OK, "ok"⟩

/-- All wrapper flags off. -/
def stAllOff : AdapterState := ⟨false, false, false, []⟩

/-- Only raise_on_errors set. -/
def stRaiseOnly : AdapterState := ⟨false, false, true, []⟩

/-- Only force_namedtuple set. -/
def stNT : AdapterState := ⟨true, false, false, []⟩

/-- global_debugging and raise_on_errors both set. -/
def stDbgRaise : AdapterState := ⟨false, true, true, []⟩

/-- A sample rate record. -/
def rowEx : RateRec := ⟨1, 2, 3, 4, 5, 6, 7, 8⟩

/-- Claim C1: with raise_on_errors enabled, a wrapped call whose underlying
function returns a result raises MT5Error carrying the code and description
from last_error if and only if that code differs from RES_S_OK; when the
code equals RES_S_OK or raise_on_errors is disabled, no MT5Error is raised
and the (possibly normalized) result is returned. -/
theorem wrapper_raises_iff_error_code (ctx : WrapCtx) (st : AdapterState)
    (res : MTResult) :
    (st.raise_on_errors = true →
      (ctx.lastErrorCode ≠ RES_S_OK ↔
        (wrapper ctx st (.ok res)).1 =
          .error (.mt5Error ctx.lastErrorCode ctx.lastErrorDesc)))
    ∧ ((st.raise_on_errors = false ∨ ctx.lastErrorCode = RES_S_OK) →
      (wrapper ctx st (.ok res)).1 =
        .ok (if st.force_namedtuple && _is_rates_array res then toRateList res else res)) := by
  constructor
  · intro hro
    by_cases hc : ctx.lastErrorCode = RES_S_OK
    · simp [wrapper, last_error, hro, hc]
    · simp [wrapper, last_error, hro, hc]
  · rintro (hro | hc)
    · simp [wrapper, last_error, hro]
    · simp [wrapper, last_error, hc]

/-- Claim C1 witness: with raise_on_errors on and error code 2, the wrapper
raises MT5Error(2, err). -/
theorem wrapper_raises_iff_error_code_witness :
    (wrapper ctxErr stRaiseOnly (.ok .pyNone)).1 =
      .error (.mt5Error ctxErr.lastErrorCode ctxErr.lastErrorDesc) :=
  ((wrapper_raises_iff_error_code ctxErr stRaiseOnly .pyNone).1 rfl).mp (by decide)

/-- Claim C2 counterexample: `last_error` is an exposed operation of the
module that does NOT carry the `_context_manager_modified` decorator, so
not every public operation passes through the wrapper. -/
theorem last_error_not_wrapped :
    exposedOps.lookup "last_error" = some false
    ∧ ¬(∀ p ∈ exposedOps, p.2 = true) := by
  constructor
  · decide
  · decide

/-- Claim C2 (amended): every exposed module-level operation except
`last_error` carries the `_context_manager_modified` decorator;
`last_error` forwards to the binding directly. -/
theorem wrapped_except_last_error :
    ∀ p ∈ exposedOps, p.1 ≠ "last_error" → p.2 = true := by decide

/-- Claim C2 witness: `copy_rates` is an exposed operation other than
`last_error`, and it is wrapped. -/
theorem wrapped_except_last_error_witness :
    ("copy_rates", true) ∈ exposedOps ∧ (("copy_rates", true) : String × Bool).2 = true :=
  ⟨by decide, wrapped_except_last_error ("copy_rates", true) (by decide) (by decide)⟩

/-- Claim C3: with force_namedtuple enabled, a rates-array result is
returned as the list converting each record to a Rate named tuple, with
length (and, being a map, order) preserved; with the flag disabled or a
non-rates-array result, the result is returned unchanged (stated for calls
that do not raise). -/
theorem wrapper_force_namedtuple_normalizes (ctx : WrapCtx) (st : AdapterState)
    (rows : List RateRec) (res : MTResult) :
    (st.force_namedtuple = true →
      (st.raise_on_errors = false ∨ ctx.lastErrorCode = RES_S_OK) →
      (wrapper ctx st (.ok (.ratesArray rows))).1 =
        .ok (.rateList (rows.map Rate.ofRec))
      ∧ (rows.map Rate.ofRec).length = rows.length)
    ∧ ((st.force_namedtuple = false ∨ _is_rates_array res = false) →
      (st.raise_on_errors = false ∨ ctx.lastErrorCode = RES_S_OK) →
      (wrapper ctx st (.ok res)).1 = .ok res) := by
  constructor
  · intro hnt hok
    refine ⟨?_, List.length_map _ _⟩
    have h := (wrapper_raises_iff_error_code ctx st (.ratesArray rows)).2 hok
    simpa [hnt, _is_rates_array, toRateList] using h
  · intro hno hok
    have h := (wrapper_raises_iff_error_code ctx st res).2 hok
    rcases hno with hnt | hra
    · simpa [hnt] using h
    · simpa [hra] using h

/-- Claim C3 witness: with force_namedtuple on, a one-record rates array
becomes the one-element list of the converted Rate. -/
theorem wrapper_force_namedtuple_normalizes_witness :
    (wrapper ctxOk stNT (.ok (.ratesArray [rowEx]))).1 =
      .ok (.rateList ([rowEx].map Rate.ofRec)) :=
  ((wrapper_force_namedtuple_normalizes ctxOk stNT [rowEx] .pyNone).1 rfl
    (Or.inl rfl)).1

/-- Claim C7: when force_namedtuple, global_debugging and raise_on_errors
are all disabled, the wrapper returns exactly the value produced by the
wrapped function and leaves the state untouched. -/
theorem wrapper_identity_when_flags_off (ctx : WrapCtx) (st : AdapterState)
    (res : MTResult) :
    st.force_namedtuple = false → st.global_debugging = false →
    st.raise_on_errors = false →
    wrapper ctx st (.ok res) = (.ok res, st) := by
  intro h1 h2 h3
  simp [wrapper, h1, h2, h3]

/-- Claim C7 witness: with all flags off the wrapper is the identity on a
sample result. -/
theorem wrapper_identity_when_flags_off_witness :
    wrapper ctxOk stAllOff (.ok (.pyInt 5)) = (.ok (.pyInt 5), stAllOff) :=
  wrapper_identity_when_flags_off ctxOk stAllOff (.pyInt 5) rfl rfl rfl

/-- Claim C10: with global_debugging and raise_on_errors both on and a
failing error code, the wrapper first normalizes the result, then appends
the debug log line (built from the call signature, last_error and the
rendered normalized result), and only then raises MT5Error, discarding the
normalized result: the output pairs the error with the state already
holding the new log line. -/
theorem wrapper_effect_order (ctx : WrapCtx) (st : AdapterState) (res : MTResult) :
    st.global_debugging = true → st.raise_on_errors = true →
    ctx.lastErrorCode ≠ RES_S_OK →
    wrapper ctx st (.ok res) =
      (.error (.mt5Error ctx.lastErrorCode ctx.lastErrorDesc),
       { st with logs := st.logs ++
          [logLine (callSigStr ctx.fname ctx.argsStr)
            (ctx.lastErrorCode, ctx.lastErrorDesc)
            (ctx.render
              (if st.force_namedtuple && _is_rates_array res then toRateList res
               else res))] }) := by
  intro hdb hro hne
  simp [wrapper, last_error, hdb, hro, hne]

/-- Claim C10 witness: at a concrete failing call the wrapper both logs and
raises, the log line surviving the raise. -/
theorem wrapper_effect_order_witness :
    wrapper ctxErr stDbgRaise (.ok .pyNone) =
      (.error (.mt5Error ctxErr.lastErrorCode ctxErr.lastErrorDesc),
       { stDbgRaise with logs := stDbgRaise.logs ++
          [logLine (callSigStr ctxErr.fname ctxErr.argsStr)
            (ctxErr.lastErrorCode, ctxErr.lastErrorDesc)
            (ctxErr.render
              (if stDbgRaise.force_namedtuple && _is_rates_array .pyNone then
                toRateList .pyNone
               else .pyNone))] }) :=
  wrapper_effect_order ctxErr stDbgRaise .pyNone rfl rfl (by decide)

/-- Claim C4: the `copy_rates` dispatch — datetime_from with count goes to
copy_rates_from; else datetime_from with datetime_to goes to
copy_rates_range; all four keywords None goes to
copy_rates_from_pos(symbol, timeframe, 3000, 0); otherwise
copy_rates_from_pos(symbol, timeframe, start_pos, count), arguments
forwarded unchanged. -/
theorem copy_rates_dispatch_cases (symbol : String) (timeframe : Int)
    (datetime_from datetime_to start_pos count : Option Int) :
    (∀ dfrom c, datetime_from = some dfrom → count = some c →
      copy_rates_dispatch symbol timeframe datetime_from datetime_to start_pos count =
        .viaFrom symbol timeframe dfrom c)
    ∧ (∀ dfrom dto, datetime_from = some dfrom → count = none → datetime_to = some dto →
      copy_rates_dispatch symbol timeframe datetime_from datetime_to start_pos count =
        .viaRange symbol timeframe dfrom dto)
    ∧ (datetime_from = none → datetime_to = none → start_pos = none → count = none →
      copy_rates_dispatch symbol timeframe datetime_from datetime_to start_pos count =
        .viaFromPos symbol timeframe (some 3000) (some 0))
    ∧ ((datetime_from = none ∨ count = none) →
       (datetime_from = none ∨ datetime_to = none) →
       ¬(datetime_from = none ∧ datetime_to = none ∧ start_pos = none ∧ count = none) →
      copy_rates_dispatch symbol timeframe datetime_from datetime_to start_pos count =
        .viaFromPos symbol timeframe start_pos count) := by
  refine ⟨?_, ?_, ?_, ?_⟩
  · rintro dfrom c rfl rfl
    rfl
  · rintro dfrom dto rfl rfl rfl
    rfl
  · rintro rfl rfl rfl rfl
    rfl
  · intro h1 h2 h3
    rcases datetime_from with _ | dfrom
    · rcases datetime_to with _ | dto <;> rcases count with _ | c <;>
        simp_all [copy_rates_dispatch]
    · have hc : count = none := by
        rcases h1 with h | h
        · exact absurd h (by simp)
        · exact h
      have hdt : datetime_to = none := by
        rcases h2 with h | h
        · exact absurd h (by simp)
        · exact h
      subst hc hdt
      simp [copy_rates_dispatch]

/-- Claim C4 witness: with only count given, the dispatch forwards start_pos
and count unchanged to copy_rates_from_pos. -/
theorem copy_rates_dispatch_cases_witness :
    copy_rates_dispatch "EURUSD" 1 none none none (some 5) =
      .viaFromPos "EURUSD" 1 none (some 5) :=
  (copy_rates_dispatch_cases "EURUSD" 1 none none none (some 5)).2.2.2
    (Or.inl rfl) (Or.inl rfl) (by decide)

/-- Claim C5: with a predicate supplied, `symbols_get` returns exactly the
symbols of the underlying result satisfying the predicate, in their
original order (a sublist); with no predicate the underlying result is
returned unfiltered. -/
theorem symbols_get_filters_by_predicate {α : Type}
    (mt5_symbols_get : Option String → List α)
    (group : Option String) (f : α → Bool) :
    (∀ x, x ∈ symbols_get mt5_symbols_get group (some f) ↔
      x ∈ mt5_symbols_get (symbols_get_call group) ∧ f x = true)
    ∧ List.Sublist (symbols_get mt5_symbols_get group (some f))
        (mt5_symbols_get (symbols_get_call group))
    ∧ symbols_get mt5_symbols_get group none = mt5_symbols_get (symbols_get_call group) := by
  refine ⟨?_, ?_, rfl⟩
  · intro x
    simp [symbols_get, List.mem_filter]
  · exact List.filter_sublist (l := mt5_symbols_get (symbols_get_call group))

/-- Claim C5 witness: filtering [1,2,3,4] by evenness through symbols_get
keeps 2. -/
theorem symbols_get_filters_by_predicate_witness :
    2 ∈ symbols_get (fun _ => [1, 2, 3, 4]) (some "grp")
        (some fun x => decide (x % 2 = 0)) :=
  ((symbols_get_filters_by_predicate (fun _ => [1, 2, 3, 4]) (some "grp")
      (fun x => decide (x % 2 = 0))).1 2).mpr (by decide)

/-- Claim C9: a falsy group argument (None or the empty string) makes
`symbols_get` call the underlying binding with no group argument at all;
a non-empty group string is forwarded as the filter. -/
theorem symbols_get_falsy_group_omitted (s : String) :
    symbols_get_call none = none ∧ symbols_get_call (some "") = none
    ∧ (s ≠ "" → symbols_get_call (some s) = some s) := by
  refine ⟨rfl, rfl, ?_⟩
  intro hs
  simp [symbols_get_call, pyTruthyStr, hs]

/-- Claim C9 witness: a non-empty group string is forwarded unchanged. -/
theorem symbols_get_falsy_group_omitted_witness :
    symbols_get_call (some "EURUSD") = some "EURUSD" :=
  (symbols_get_falsy_group_omitted "EURUSD").2.2 (by decide)

/-- The guarantee each `try ... except SystemError: return None` body gives:
SystemError from the binding is replaced by None, every other exception
propagates unchanged, and a normal result passes through. -/
def suppressesSystemError (call out : Except PyExc MTResult) : Prop :=
  (∀ m, call = .error (.systemError m) → out = .ok .pyNone)
  ∧ (∀ code desc, call = .error (.mt5Error code desc) →
      out = .error (.mt5Error code desc))
  ∧ (∀ n m, call = .error (.otherExc n m) → out = .error (.otherExc n m))
  ∧ (∀ r, call = .ok r → out = .ok r)

/-- The catch pattern shared by the copy functions satisfies
`suppressesSystemError`. -/
theorem suppress_of_catch (call : Except PyExc MTResult) :
    suppressesSystemError call
      (match call with
        | .error (.systemError _) => .ok .pyNone
        | r => r) := by
  rcases call with e | r
  · rcases e with m | ⟨code, desc⟩ | ⟨n, m⟩ <;>
      simp [suppressesSystemError]
  · simp [suppressesSystemError]

/-- Claim C8: each of copy_rates_from, copy_rates_from_pos,
copy_rates_range, copy_rates, copy_ticks_from and copy_ticks_range returns
None when the underlying call raises SystemError and propagates every other
exception type uncaught. -/
theorem copy_functions_suppress_system_error
    (mt5a mt5b mt5c mt5d mt5e : String → Int → Int → Int → Except PyExc MTResult)
    (impl : CopyRatesCall → Except PyExc MTResult)
    (symbol : String) (x y z : Int)
    (datetime_from datetime_to start_pos count : Option Int) :
    suppressesSystemError (mt5a symbol x y z) (copy_rates_from mt5a symbol x y z)
    ∧ suppressesSystemError (mt5b symbol x y z) (copy_rates_from_pos mt5b symbol x y z)
    ∧ suppressesSystemError (mt5c symbol x y z) (copy_rates_range mt5c symbol x y z)
    ∧ suppressesSystemError
        (impl (copy_rates_dispatch symbol x datetime_from datetime_to start_pos count))
        (copy_rates impl symbol x datetime_from datetime_to start_pos count)
    ∧ suppressesSystemError (mt5d symbol x y z) (copy_ticks_from mt5d symbol x y z)
    ∧ suppressesSystemError (mt5e symbol x y z) (copy_ticks_range mt5e symbol x y z) :=
  ⟨suppress_of_catch _, suppress_of_catch _, suppress_of_catch _,
   suppress_of_catch _, suppress_of_catch _, suppress_of_catch _⟩

/-- Claim C8 witness: a binding raising SystemError makes copy_rates_from
return None. -/
theorem copy_functions_suppress_system_error_witness :
    copy_rates_from (fun _ _ _ _ => .error (.systemError "boom")) "EURUSD" 1 0 10 =
      .ok .pyNone :=
  (copy_functions_suppress_system_error
      (fun _ _ _ _ => .error (.systemError "boom"))
      (fun _ _ _ _ => .ok .pyNone) (fun _ _ _ _ => .ok .pyNone)
      (fun _ _ _ _ => .ok .pyNone) (fun _ _ _ _ => .ok .pyNone)
      (fun _ => .ok .pyNone)
      "EURUSD" 1 0 10 none none none none).1.1 "boom" rfl

/-- Claim C6: the embedded operations delegate to the external binding:
initialize forwards the cleaned arguments, account_info returns the
binding result unchanged, login pops the login value and forwards the rest,
symbols_get filters the binding result, and copy_rates returns the
dispatched invocation result when no exception occurs — in every case the
returned value is derived from that one invocation. -/
theorem adapter_delegates_to_binding
    (mt5_init : List (String × PyArg) → Except PyExc MTResult)
    (mt5_login : PyArg → List (String × PyArg) → Except PyExc MTResult)
    (mt5_account_info : Except PyExc MTResult)
    (mt5_symbols_get : Option String → List Nat)
    (impl : CopyRatesCall → Except PyExc MTResult)
    (args : List (String × Option PyArg)) (loginArg : PyArg)
    (others : List (String × Option PyArg))
    (group : Option String) (f : Nat → Bool)
    (symbol : String) (timeframe : Int)
    (a b c d : Option Int) (r : MTResult) :
    initialize_body mt5_init args = mt5_init (_clean_args args)
    ∧ account_info_body mt5_account_info = mt5_account_info
    ∧ login_body mt5_login loginArg others =
        mt5_login loginArg ((_clean_args others).filter (fun p => p.1 ≠ "login"))
    ∧ symbols_get mt5_symbols_get group (some f) =
        (mt5_symbols_get (symbols_get_call group)).filter f
    ∧ (impl (copy_rates_dispatch symbol timeframe a b c d) = .ok r →
        copy_rates impl symbol timeframe a b c d = .ok r) := by
  refine ⟨rfl, rfl, ?_, rfl, ?_⟩
  · simp [login_body, dictPop, _clean_args]
  · intro h
    simp [copy_rates, h]

/-- Claim C6 witness: with a binding answering an integer, copy_rates
returns exactly that integer. -/
theorem adapter_delegates_to_binding_witness :
    copy_rates (fun _ => .ok (.pyInt 7)) "EURUSD" 1 none none none none =
      .ok (.pyInt 7) :=
  (adapter_delegates_to_binding (fun _ => .ok .pyNone)
      (fun _ _ => .ok .pyNone) (.ok .pyNone) (fun _ => [])
      (fun _ => .ok (.pyInt 7)) [] (.int 0) [] none (fun _ => true)
      "EURUSD" 1 none none none none (.pyInt 7)).2.2.2.2 rfl

end PyMT5
